import Mathlib

/-!
Shallow embedding of the cluster request-forwarding layer of OpenBao
(`vault/request_forwarding.go`): the TLS identity callbacks
(`ClientLookup`, `ServerLookup`), the forwarding-handler `Stop`, the
orchestrator transitions (`clearForwardingClients`,
`refreshRequestForwardingConnection`) and the hot path `ForwardRequest`.

Go nil-able pointers, slices and funcs become `Option`; byte slices become
`List Nat`; the external collaborators (`url.Parse`, `grpc.DialContext`,
`forwarding.GenerateForwardedRequest`, the remote RPC) become oracle
functions supplied as parameters, universally quantified in the theorems.
Side effects that the spec talks about (closing the previous connection,
registering/removing the client identity on the cluster listener, metrics,
serialization, the RPC call, the drain sleep) are recorded as explicit
event traces so ordering claims are statable.
-/

set_option autoImplicit false

namespace OpenBao

/-- Byte strings (`[]byte`) as lists of bytes. -/
abbrev Bytes := List Nat

/-- The fields of a parsed X.509 certificate the forwarding layer reads:
`RawIssuer` (compared against the peer's acceptable-CA subjects) and the
subject common name (used for `ServerName`); `raw` stands for the rest of
the parsed data. -/
structure X509Certificate where
  rawIssuer : Bytes
  subjectCommonName : String
  raw : Bytes
  deriving Repr, DecidableEq

/-- `tls.Certificate` as built by the lookup callbacks: the certificate
chain (a single leaf here), the private key, and the parsed leaf. -/
structure TLSCertificate where
  certificate : List Bytes
  privateKey : Option Nat
  leaf : Option X509Certificate
  deriving Repr, DecidableEq

/-- The cluster-identity fields of `Core` read by the TLS callbacks:
`localClusterCert` (stored certificate bytes, empty slice when absent),
`localClusterParsedCert` (nil-able parsed certificate) and
`localClusterPrivateKey` (abstract handle). -/
structure CoreIdentity where
  localClusterCert : Bytes
  localClusterParsedCert : Option X509Certificate
  localClusterPrivateKey : Option Nat
  deriving Repr, DecidableEq

/-- `requestForwardingClusterClient.ClientLookup`: returns the local
certificate only when the parsed certificate is present, the stored bytes
are non-empty, and some acceptable-CA subject of the peer equals the local
certificate's raw issuer; otherwise declines with `(none, none)`.
The result pairs the nil-able certificate with the nil-able error. -/
def ClientLookup (c : CoreIdentity) (acceptableCAs : List Bytes) :
    Option TLSCertificate × Option String :=
  match c.localClusterParsedCert with
  | none => (none, none)
  | some parsedCert =>
    if c.localClusterCert.length = 0 then (none, none)
    else if acceptableCAs.any (fun subj => subj = parsedCert.rawIssuer) then
      (some { certificate := [c.localClusterCert],
              privateKey := c.localClusterPrivateKey,
              leaf := c.localClusterParsedCert }, none)
    else (none, none)

/-- `requestForwardingHandler.ServerLookup`: errors when the stored
certificate bytes are empty, and otherwise returns the local certificate
(leaf taken from the nil-able parsed certificate, unchecked). -/
def ServerLookup (c : CoreIdentity) :
    Option TLSCertificate × Option String :=
  if c.localClusterCert.length = 0 then
    (none, some "got forwarding connection but no local cert")
  else
    (some { certificate := [c.localClusterCert],
            privateKey := c.localClusterPrivateKey,
            leaf := c.localClusterParsedCert }, none)

/-- `requestForwardingClusterClient.ServerName`: common name of the parsed
certificate, empty string when absent. -/
def ServerName (c : CoreIdentity) : String :=
  match c.localClusterParsedCert with
  | none => ""
  | some parsedCert => parsedCert.subjectCommonName

/-! ## Forwarding handler `Stop` -/

/-- The observable steps of `requestForwardingHandler.Stop`. -/
inductive StopEvent where
  /-- `time.Sleep(cluster.ListenerAcceptDeadline)` -/
  | sleepAcceptDrain
  /-- `close(rf.stopCh)` -/
  | closeStopCh
  /-- `rf.fwRPCServer.Stop()` -/
  | stopRPCServer
  deriving Repr, DecidableEq

/-- The goroutine-visible handler state `Stop` mutates. -/
structure RFHandlerState where
  stopChClosed : Bool
  rpcServerStopped : Bool
  deriving Repr, DecidableEq

/-- `requestForwardingHandler.Stop`: sleeps for the cluster listener's
accept deadline, closes the stop channel, stops the RPC server, returns
nil. The trace records the order the three steps execute in. -/
def requestForwardingHandlerStop (h : RFHandlerState) :
    RFHandlerState × List StopEvent × Option String :=
  let h₁ := { h with stopChClosed := true }
  let h₂ := { h₁ with rpcServerStopped := true }
  (h₂, [StopEvent.sleepAcceptDrain, StopEvent.closeStopCh, StopEvent.stopRPCServer], none)

/-! ## Orchestrator state and `clearForwardingClients` / `refreshRequestForwardingConnection` -/

/-- `consts.RequestForwardingALPN`, the protocol tag under which the
forwarding handler and client identity are registered on the cluster
listener. -/
def RequestForwardingALPN : String := "req_fw_sb-act_v1"

/-- The cluster listener as consumed by this layer: the set of ALPN tags
that currently have a registered client identity (`AddClient` /
`RemoveClient` maintain a map keyed by tag, so each tag is registered at
most once). -/
structure ClusterListener where
  clients : List String
  deriving Repr, DecidableEq

/-- `ClusterListener.AddClient`: map assignment keyed by the ALPN tag. -/
def addClient (alpn : String) (l : ClusterListener) : ClusterListener :=
  if l.clients.contains alpn then l else { l with clients := alpn :: l.clients }

/-- `ClusterListener.RemoveClient`: map deletion keyed by the ALPN tag. -/
def removeClient (alpn : String) (l : ClusterListener) : ClusterListener :=
  { l with clients := l.clients.filter (fun t => t ≠ alpn) }

/-- The `Core` fields the orchestrator owns under
`requestForwardingConnectionLock`, plus the identity cell and the
nil-able cluster listener. Connection handles and contexts are abstract
`Nat` ids; the cancel func is present-or-nil. -/
structure CoreState where
  identity : CoreIdentity
  rpcClientConn : Option Nat
  rpcClientConnContext : Option Nat
  rpcClientConnCancelFunc : Option Unit
  rpcForwardingClient : Option Nat
  clusterListener : Option ClusterListener
  clusterLeaderParams : Option Nat
  deriving Repr, DecidableEq

/-- The observable steps of `clearForwardingClients` and
`refreshRequestForwardingConnection`. -/
inductive RefreshEvent where
  /-- `c.rpcClientConnCancelFunc()` on a previous connection -/
  | cancelPrevCancelFunc
  /-- `c.rpcClientConn.Close()` on a previous connection -/
  | closePrevConn
  /-- `clusterListener.RemoveClient(consts.RequestForwardingALPN)` -/
  | removeListenerClient
  /-- `clusterListener.AddClient(consts.RequestForwardingALPN, ...)` -/
  | addListenerClient
  /-- `grpc.DialContext(...)` -/
  | dialAttempt
  /-- `cancelFunc()` on the freshly created context after a failed dial -/
  | cancelNewCancelFunc
  /-- the new connection and forwarding client are published -/
  | connEstablished
  /-- `c.rpcForwardingClient.startHeartbeat()` -/
  | startHeartbeat
  deriving Repr, DecidableEq

/-- `Core.clearForwardingClients`: calls and nils the cancel func if
present, closes and nils the connection if present, nils the context and
forwarding client, removes the client identity from the cluster listener
if one is configured, and stores nil leader params. -/
def clearForwardingClients (s : CoreState) : CoreState × List RefreshEvent :=
  let (s₁, ev₁) :=
    match s.rpcClientConnCancelFunc with
    | some _ => ({ s with rpcClientConnCancelFunc := none }, [RefreshEvent.cancelPrevCancelFunc])
    | none => (s, [])
  let (s₂, ev₂) :=
    match s₁.rpcClientConn with
    | some _ => ({ s₁ with rpcClientConn := none }, [RefreshEvent.closePrevConn])
    | none => (s₁, [])
  let s₃ := { s₂ with rpcClientConnContext := none, rpcForwardingClient := none }
  let (s₄, ev₃) :=
    match s₃.clusterListener with
    | some l =>
        ({ s₃ with clusterListener := some (removeClient RequestForwardingALPN l) },
         [RefreshEvent.removeListenerClient])
    | none => (s₃, [])
  ({ s₄ with clusterLeaderParams := none }, ev₁ ++ ev₂ ++ ev₃)

/-- The portion of a parsed `url.URL` the refresh path reads. -/
structure URL where
  host : String
  deriving Repr, DecidableEq

/-- External collaborators of the refresh path: `url.Parse` and
`grpc.DialContext` through the listener's dialer (returning an abstract
connection id on success). -/
structure RefreshOracle where
  parseURL : String → Except String URL
  dial : String → Except String Nat

/-- The body of `Core.refreshRequestForwardingConnection` after the
initial `clearForwardingClients` (lines following "Clean things up
first"): returns nil on an empty address; parses the address (propagating
a parse error); errors when no parsed local certificate is present;
returns nil when no cluster listener is configured; otherwise registers
the client identity on the listener and dials. A dial error cancels the
freshly created context and is propagated (the `AddClient` registration
is not undone, and the nil connection returned by the failed dial is
stored). On success the connection, context, cancel func and forwarding
client are published and the heartbeat starts. -/
def refreshEstablish (o : RefreshOracle) (s₁ : CoreState) (ctx : Nat)
    (clusterAddr : String) :
    CoreState × Option String × List RefreshEvent :=
  if clusterAddr = "" then (s₁, none, [])
  else
    match o.parseURL clusterAddr with
    | .error e => (s₁, some e, [])
    | .ok clusterURL =>
      match s₁.identity.localClusterParsedCert with
      | none => (s₁, some "no request forwarding cluster certificate found", [])
      | some _ =>
        match s₁.clusterListener with
        | none => (s₁, none, [])
        | some l =>
          let s₂ := { s₁ with clusterListener := some (addClient RequestForwardingALPN l) }
          match o.dial clusterURL.host with
          | .error e =>
              (s₂, some e,
               [RefreshEvent.addListenerClient, RefreshEvent.dialAttempt,
                RefreshEvent.cancelNewCancelFunc])
          | .ok connId =>
              ({ s₂ with
                   rpcClientConn := some connId,
                   rpcClientConnContext := some ctx,
                   rpcClientConnCancelFunc := some (),
                   rpcForwardingClient := some connId },
               none,
               [RefreshEvent.addListenerClient, RefreshEvent.dialAttempt,
                RefreshEvent.connEstablished, RefreshEvent.startHeartbeat])

/-- `Core.refreshRequestForwardingConnection`: under the write lock,
clears the previous connection first, then runs the establishment logic
of `refreshEstablish` on the cleared state. Returns the new state, the
nil-able error, and the event trace (teardown events followed by
establishment events). -/
def refreshRequestForwardingConnection (o : RefreshOracle) (s : CoreState)
    (ctx : Nat) (clusterAddr : String) :
    CoreState × Option String × List RefreshEvent :=
  let (s₁, ev₁) := clearForwardingClients s
  let (s₂, err, ev₂) := refreshEstablish o s₁ ctx clusterAddr
  (s₂, err, ev₁ ++ ev₂)

/-! ## `ForwardRequest` -/

/-- A header multimap (`http.Header` / the wire header map): an
association list from header name to its ordered list of values. Keys are
distinct, as in a Go map. -/
abbrev HeaderMap := List (String × List String)

/-- Lookup in a header multimap (Go map indexing). -/
def lookupHeader (k : String) (h : HeaderMap) : Option (List String) :=
  (h.find? (fun p => p.1 = k)).map Prod.snd

/-- Go map assignment `h[k] = vs`: overwrite the existing entry for `k`,
or append a fresh one. -/
def setHeader (h : HeaderMap) (k : String) (vs : List String) : HeaderMap :=
  if h.any (fun p => p.1 = k) then
    h.map (fun p => if p.1 = k then (k, vs) else p)
  else h ++ [(k, vs)]

/-- A wire header entry (`forwarding.HeaderEntry`): an ordered list of
values for one header name. -/
structure HeaderEntry where
  values : List String
  deriving Repr, DecidableEq

/-- The wire response (`forwarding.Response`): `StatusCode` (uint32),
nil-able `HeaderEntries` map, body bytes. -/
structure ForwardedResponse where
  statusCode : Nat
  headerEntries : Option (List (String × HeaderEntry))
  body : Bytes
  deriving Repr, DecidableEq

/-- The loop in `ForwardRequest` that rebuilds an `http.Header` from the
wire `HeaderEntries` map: nil in, nil out; otherwise start from an empty
map and assign `header[k] = v.Values` per entry. -/
def buildHeader : Option (List (String × HeaderEntry)) → Option HeaderMap
  | none => none
  | some entries => some (entries.foldl (fun acc kv => setHeader acc kv.1 kv.2.values) [])

/-- A value stored in a request context under a string key
(`interface{}`): either a string or something a `.(string)` type
assertion would reject (including the untyped nil returned for a missing
key, folded into `Option.none` at the `Request` field). -/
inductive CtxValue where
  | str (s : String)
  | nonString
  deriving Repr, DecidableEq

/-- The fields of `*http.Request` that `ForwardRequest` touches or that
its frame condition ranges over: `URL.Path` (mutated and restored), the
context value under `"original_request_path"`, and opaque stand-ins for
every other field of the URL and of the request. -/
structure Request where
  method : String
  urlPath : String
  urlRest : Nat
  header : HeaderMap
  body : Bytes
  ctxOriginalRequestPath : Option CtxValue
  rest : Nat
  deriving Repr, DecidableEq

/-- The wire request produced by `forwarding.GenerateForwardedRequest`
(helper package, external to this file's source): opaque handle. -/
structure ForwardedRequest where
  id : Nat
  deriving Repr, DecidableEq

/-- External collaborators of `ForwardRequest`:
`forwarding.GenerateForwardedRequest` (which may error, or return a nil
request) and the remote RPC `rpcForwardingClient.ForwardRequest`. -/
structure ForwardOracle where
  genFwd : Request → Except Unit (Option ForwardedRequest)
  rpcForward : ForwardedRequest → Except Unit ForwardedResponse

/-- The observable side effects of `Core.ForwardRequest`. The serialize
event records the exact request snapshot handed to
`GenerateForwardedRequest`. -/
inductive FwdEvent where
  /-- `forwarding.GenerateForwardedRequest(req)` with the given snapshot -/
  | serialize (r : Request)
  /-- `c.rpcForwardingClient.ForwardRequest(ctx, freq)` -/
  | rpcCall (freq : ForwardedRequest)
  /-- `metrics.IncrCounter({"ha","rpc","client","forward","errors"}, 1)` -/
  | metricErrIncr
  /-- deferred `metrics.MeasureSince({"ha","rpc","client","forward"}, ...)` -/
  | metricMeasure
  deriving Repr, DecidableEq

/-- The distinguishable error values `ForwardRequest` can return. -/
inductive ForwardError where
  /-- the sentinel `ErrCannotForward` -/
  | cannotForward
  /-- `"error creating forwarding RPC request"` -/
  | createError
  /-- `"got nil forwarding RPC request"` -/
  | nilRequest
  /-- `"error during forwarding RPC request"` -/
  | rpcError
  deriving Repr, DecidableEq

/-- The sentinel `ErrCannotForward`. -/
def ErrCannotForward : ForwardError := ForwardError.cannotForward

/-- Result of a call that can panic (the unchecked `.(string)` type
assertion). -/
inductive Outcome (α : Type) where
  | ok (a : α)
  | panicked
  deriving Repr, DecidableEq

/-- What a `ForwardRequest` call produces when it does not panic: the Go
return tuple `(int, http.Header, []byte, error)`, the caller's request as
it stands after the deferred path restore, and the event trace. -/
structure ForwardResult where
  status : Int
  header : Option HeaderMap
  body : Option Bytes
  err : Option ForwardError
  reqAfter : Request
  trace : List FwdEvent
  deriving Repr, DecidableEq

/-- `Core.ForwardRequest`: under the read lock, returns
`(0, nil, nil, ErrCannotForward)` with no side effects when no forwarding
client is set; otherwise records the duration metric (deferred), saves
and defers restoration of `req.URL.Path`, overwrites the path with the
context's `"original_request_path"` value via an unchecked `.(string)`
assertion (panicking when the value is missing or not a string),
serializes, sends the RPC, and copies status/headers/body from the wire
response. -/
def ForwardRequest (o : ForwardOracle) (s : CoreState) (req : Request) :
    Outcome ForwardResult :=
  match s.rpcForwardingClient with
  | none =>
      Outcome.ok { status := 0, header := none, body := none,
                   err := some ErrCannotForward, reqAfter := req, trace := [] }
  | some _ =>
    let origPath := req.urlPath
    match req.ctxOriginalRequestPath with
    | some (CtxValue.str p) =>
      let reqSer := { req with urlPath := p }
      match o.genFwd reqSer with
      | .error _ =>
          Outcome.ok { status := 0, header := none, body := none,
                       err := some ForwardError.createError,
                       reqAfter := { reqSer with urlPath := origPath },
                       trace := [FwdEvent.serialize reqSer, FwdEvent.metricMeasure] }
      | .ok none =>
          Outcome.ok { status := 0, header := none, body := none,
                       err := some ForwardError.nilRequest,
                       reqAfter := { reqSer with urlPath := origPath },
                       trace := [FwdEvent.serialize reqSer, FwdEvent.metricMeasure] }
      | .ok (some freq) =>
        match o.rpcForward freq with
        | .error _ =>
            Outcome.ok { status := 0, header := none, body := none,
                         err := some ForwardError.rpcError,
                         reqAfter := { reqSer with urlPath := origPath },
                         trace := [FwdEvent.serialize reqSer, FwdEvent.rpcCall freq,
                                   FwdEvent.metricErrIncr, FwdEvent.metricMeasure] }
        | .ok resp =>
            Outcome.ok { status := (resp.statusCode : Int),
                         header := buildHeader resp.headerEntries,
                         body := some resp.body,
                         err := none,
                         reqAfter := { reqSer with urlPath := origPath },
                         trace := [FwdEvent.serialize reqSer, FwdEvent.rpcCall freq,
                                   FwdEvent.metricMeasure] }
    | _ => Outcome.panicked

/-- The frame/effect condition of a `ForwardRequest` call that runs past
the nil-client check: the call completes without panicking, the caller's
request comes back with every field equal to its pre-call value (the
deferred `req.URL.Path` restore), and the snapshot handed to the
serializer carries the context's original request path `p`. -/
def forwardPreservesRequest (req : Request) (p : String) :
    Outcome ForwardResult → Prop
  | Outcome.ok res =>
      res.reqAfter = req ∧ FwdEvent.serialize { req with urlPath := p } ∈ res.trace
  | Outcome.panicked => False

/-! ## Concrete fixtures used by witnesses and counterexamples -/

/-- A concrete parsed cluster certificate. -/
def certA : X509Certificate :=
  { rawIssuer := [1, 2, 3], subjectCommonName := "node-a", raw := [9, 9] }

/-- A present cluster identity. -/
def identPresent : CoreIdentity :=
  { localClusterCert := [4, 5], localClusterParsedCert := some certA,
    localClusterPrivateKey := some 11 }

/-- An absent cluster identity (no stored bytes, no parsed certificate). -/
def identAbsent : CoreIdentity :=
  { localClusterCert := [], localClusterParsedCert := none, localClusterPrivateKey := none }

/-- A node with a live forwarding connection and a client registration. -/
def stateConnected : CoreState :=
  { identity := identPresent, rpcClientConn := some 5, rpcClientConnContext := some 1,
    rpcClientConnCancelFunc := some (), rpcForwardingClient := some 5,
    clusterListener := some { clients := [RequestForwardingALPN] },
    clusterLeaderParams := some 2 }

/-- A node with no connection but a configured cluster listener. -/
def stateIdle : CoreState :=
  { identity := identPresent, rpcClientConn := none, rpcClientConnContext := none,
    rpcClientConnCancelFunc := none, rpcForwardingClient := none,
    clusterListener := some { clients := [] }, clusterLeaderParams := none }

/-- A node with a present identity but no cluster listener. -/
def stateNoListener : CoreState := { stateIdle with clusterListener := none }

/-- A node with a cluster listener but an absent identity. -/
def stateNoCert : CoreState := { stateIdle with identity := identAbsent }

/-- A refresh oracle whose parse and dial both succeed. -/
def oracleDialOk : RefreshOracle :=
  { parseURL := fun a => .ok { host := a }, dial := fun _ => .ok 7 }

/-- A refresh oracle whose parse succeeds and whose dial fails. -/
def oracleDialFail : RefreshOracle :=
  { parseURL := fun a => .ok { host := a }, dial := fun _ => .error "connection refused" }

/-- A concrete wire response with a repeated-value header entry. -/
def respFix : ForwardedResponse :=
  { statusCode := 200,
    headerEntries := some [("X-Test", { values := ["1", "2"] }),
                           ("X-Echo", { values := ["ok"] })],
    body := [100, 111, 110, 101] }

/-- A concrete wire request handle. -/
def freqFix : ForwardedRequest := { id := 1 }

/-- A forward oracle whose serializer and RPC both succeed. -/
def fwdOracleOk : ForwardOracle :=
  { genFwd := fun _ => .ok (some freqFix), rpcForward := fun _ => .ok respFix }

/-- A concrete request whose context carries the original request path. -/
def reqFix : Request :=
  { method := "POST", urlPath := "/v1/sys/after-routing", urlRest := 0,
    header := [("X-Test", ["1", "2"])], body := [112],
    ctxOriginalRequestPath := some (CtxValue.str "/v1/secret/foo"), rest := 3 }

/-- `reqFix` with the `"original_request_path"` context value missing. -/
def reqNoCtx : Request := { reqFix with ctxOriginalRequestPath := none }

/-! ## Helper lemmas -/

theorem clearForwardingClients_fields (s : CoreState) :
    (clearForwardingClients s).1.rpcClientConn = none ∧
    (clearForwardingClients s).1.rpcClientConnCancelFunc = none ∧
    (clearForwardingClients s).1.rpcClientConnContext = none ∧
    (clearForwardingClients s).1.rpcForwardingClient = none ∧
    (clearForwardingClients s).1.identity = s.identity ∧
    (clearForwardingClients s).1.clusterLeaderParams = none := by
  unfold clearForwardingClients
  cases h1 : s.rpcClientConnCancelFunc <;> cases h2 : s.rpcClientConn <;>
    cases h3 : s.clusterListener <;> simp [h1, h2, h3]

theorem clearForwardingClients_listener (s : CoreState) :
    (clearForwardingClients s).1.clusterListener
      = s.clusterListener.map (removeClient RequestForwardingALPN) := by
  unfold clearForwardingClients
  cases h1 : s.rpcClientConnCancelFunc <;> cases h2 : s.rpcClientConn <;>
    cases h3 : s.clusterListener <;> simp [h1, h2, h3]

theorem clearForwardingClients_no_establish (s : CoreState) :
    RefreshEvent.connEstablished ∉ (clearForwardingClients s).2 := by
  unfold clearForwardingClients
  cases h1 : s.rpcClientConnCancelFunc <;> cases h2 : s.rpcClientConn <;>
    cases h3 : s.clusterListener <;> simp [h1, h2, h3]

theorem not_mem_removeClient (a : String) (l : ClusterListener) :
    a ∉ (removeClient a l).clients := by
  simp [removeClient, List.mem_filter]

theorem mem_addClient (a : String) (l : ClusterListener) :
    a ∈ (addClient a l).clients := by
  unfold addClient
  by_cases h : l.clients.contains a
  · rw [if_pos h]
    exact List.mem_of_elem_eq_true h
  · rw [if_neg h]
    exact List.mem_cons_self a l.clients

theorem refresh_trace_starts_with_clear (o : RefreshOracle) (s : CoreState) (ctx : Nat) (addr : String) :
    ∃ rest, (refreshRequestForwardingConnection o s ctx addr).2.2
      = (clearForwardingClients s).2 ++ rest := by
  unfold refreshRequestForwardingConnection
  exact ⟨(refreshEstablish o (clearForwardingClients s).1 ctx addr).2.2, rfl⟩

theorem refresh_empty (o : RefreshOracle) (s : CoreState) (ctx : Nat) :
    refreshRequestForwardingConnection o s ctx ""
      = ((clearForwardingClients s).1, none, (clearForwardingClients s).2) := by
  unfold refreshRequestForwardingConnection refreshEstablish
  simp

theorem refreshEstablish_noCert (o : RefreshOracle) (s₁ : CoreState) (ctx : Nat)
    (addr : String) (u : URL) (hne : addr ≠ "") (hp : o.parseURL addr = .ok u)
    (hc : s₁.identity.localClusterParsedCert = none) :
    refreshEstablish o s₁ ctx addr
      = (s₁, some "no request forwarding cluster certificate found", []) := by
  unfold refreshEstablish
  rw [if_neg hne, hp]
  simp only []
  rw [hc]

theorem refreshEstablish_noListener (o : RefreshOracle) (s₁ : CoreState) (ctx : Nat)
    (addr : String) (u : URL) (pc : X509Certificate)
    (hne : addr ≠ "") (hp : o.parseURL addr = .ok u)
    (hc : s₁.identity.localClusterParsedCert = some pc)
    (hl : s₁.clusterListener = none) :
    refreshEstablish o s₁ ctx addr = (s₁, none, []) := by
  unfold refreshEstablish
  rw [if_neg hne, hp]
  simp only []
  rw [hc]
  simp only []
  rw [hl]

theorem refreshEstablish_dialFail (o : RefreshOracle) (s₁ : CoreState) (ctx : Nat)
    (addr : String) (u : URL) (pc : X509Certificate) (l : ClusterListener) (e : String)
    (hne : addr ≠ "") (hp : o.parseURL addr = .ok u)
    (hc : s₁.identity.localClusterParsedCert = some pc)
    (hl : s₁.clusterListener = some l)
    (hd : o.dial u.host = .error e) :
    refreshEstablish o s₁ ctx addr
      = ({ s₁ with clusterListener := some (addClient RequestForwardingALPN l) }, some e,
         [RefreshEvent.addListenerClient, RefreshEvent.dialAttempt,
          RefreshEvent.cancelNewCancelFunc]) := by
  unfold refreshEstablish
  rw [if_neg hne, hp]
  simp only []
  rw [hc]
  simp only []
  rw [hl]
  simp only []
  rw [hd]

theorem setHeader_of_not_mem (h : HeaderMap) (k : String) (vs : List String)
    (hk : ∀ p ∈ h, p.1 ≠ k) : setHeader h k vs = h ++ [(k, vs)] := by
  unfold setHeader
  have hany : h.any (fun p => decide (p.1 = k)) = false := by
    simp only [List.any_eq_false, decide_eq_true_eq]
    exact hk
  simp [hany]

theorem foldl_setHeader_append (entries : List (String × HeaderEntry)) (acc : HeaderMap)
    (hdisj : ∀ kv ∈ entries, ∀ p ∈ acc, p.1 ≠ kv.1)
    (hnd : (entries.map Prod.fst).Nodup) :
    entries.foldl (fun a kv => setHeader a kv.1 kv.2.values) acc
      = acc ++ entries.map (fun kv => (kv.1, kv.2.values)) := by
  induction entries generalizing acc with
  | nil => simp
  | cons kv tl ih =>
    have hhead : kv.1 ∉ tl.map Prod.fst := (List.nodup_cons.mp (by simpa using hnd)).1
    have htl : (tl.map Prod.fst).Nodup := (List.nodup_cons.mp (by simpa using hnd)).2
    simp only [List.foldl_cons]
    rw [setHeader_of_not_mem acc kv.1 kv.2.values
      (fun p hp => hdisj kv (List.mem_cons_self kv tl) p hp)]
    rw [ih (acc ++ [(kv.1, kv.2.values)]) ?_ htl]
    · simp
    · intro kv2 hkv2 p hp
      rcases List.mem_append.mp hp with hp | hp
      · exact hdisj kv2 (List.mem_cons_of_mem kv hkv2) p hp
      · have hp1 : p.1 = kv.1 := by
          rcases List.mem_singleton.mp hp with rfl
          rfl
        rw [hp1]
        intro hcontra
        exact hhead (hcontra ▸ List.mem_map.mpr ⟨kv2, hkv2, rfl⟩)

theorem buildHeader_eq_of_nodup (entries : List (String × HeaderEntry))
    (hnd : (entries.map Prod.fst).Nodup) :
    buildHeader (some entries) = some (entries.map (fun kv => (kv.1, kv.2.values))) := by
  show some (entries.foldl (fun acc kv => setHeader acc kv.1 kv.2.values) []) = _
  rw [foldl_setHeader_append entries [] (by simp) hnd]
  simp

theorem lookupHeader_map_of_nodup (entries : List (String × HeaderEntry))
    (hnd : (entries.map Prod.fst).Nodup) (k : String) (v : HeaderEntry)
    (hmem : (k, v) ∈ entries) :
    lookupHeader k (entries.map (fun kv => (kv.1, kv.2.values))) = some v.values := by
  induction entries with
  | nil => cases hmem
  | cons hd tl ih =>
    have hhead : hd.1 ∉ tl.map Prod.fst := (List.nodup_cons.mp (by simpa using hnd)).1
    have htl : (tl.map Prod.fst).Nodup := (List.nodup_cons.mp (by simpa using hnd)).2
    rcases List.mem_cons.mp hmem with heq | hmem2
    · rw [← heq]
      simp [lookupHeader, List.find?]
    · have hne : ¬ hd.1 = k := by
        intro hcontra
        exact hhead (hcontra ▸ List.mem_map.mpr ⟨(k, v), hmem2, rfl⟩)
      simp only [List.map_cons, lookupHeader, List.find?, decide_eq_false hne]
      simpa [lookupHeader] using ih htl hmem2

/-! ## Claim theorems -/

/-- Claim C1: every `refreshRequestForwardingConnection` call fully clears
the existing forwarding connection state (cancel func, RPC connection,
context, client, listener client registration) before any new connection
is established — the trace starts with the complete teardown trace, after
which every piece of connection state is gone and no establishment event
has occurred — so at most one outbound forwarding connection exists at
any instant; and a call with an empty cluster address clears the prior
connection, establishes nothing, and returns nil. -/
theorem C1_refresh_clears_before_establishing (o : RefreshOracle) (s : CoreState)
    (ctx : Nat) (clusterAddr : String) :
    (∃ rest, (refreshRequestForwardingConnection o s ctx clusterAddr).2.2
        = (clearForwardingClients s).2 ++ rest) ∧
    RefreshEvent.connEstablished ∉ (clearForwardingClients s).2 ∧
    (clearForwardingClients s).1.rpcClientConn = none ∧
    (clearForwardingClients s).1.rpcClientConnCancelFunc = none ∧
    (clearForwardingClients s).1.rpcClientConnContext = none ∧
    (clearForwardingClients s).1.rpcForwardingClient = none ∧
    (∀ l, (clearForwardingClients s).1.clusterListener = some l →
        RequestForwardingALPN ∉ l.clients) ∧
    (clusterAddr = "" →
        refreshRequestForwardingConnection o s ctx clusterAddr
          = ((clearForwardingClients s).1, none, (clearForwardingClients s).2)) := by
  obtain ⟨h1, h2, h3, h4, -, -⟩ := clearForwardingClients_fields s
  refine ⟨refresh_trace_starts_with_clear o s ctx clusterAddr,
          clearForwardingClients_no_establish s, h1, h2, h3, h4, ?_, ?_⟩
  · intro l hl
    rw [clearForwardingClients_listener s] at hl
    rcases Option.map_eq_some'.mp hl with ⟨l0, -, hf⟩
    exact hf ▸ not_mem_removeClient RequestForwardingALPN l0
  · intro h
    subst h
    exact refresh_empty o s ctx

/-- Witness for C1: a refresh with the empty address on a fully connected
node tears everything down, establishes nothing, and returns nil. -/
theorem C1_refresh_empty_addr_witness :
    refreshRequestForwardingConnection oracleDialOk stateConnected 0 ""
      = ((clearForwardingClients stateConnected).1, none,
         (clearForwardingClients stateConnected).2) :=
  (C1_refresh_clears_before_establishing oracleDialOk stateConnected 0 "").2.2.2.2.2.2.2 rfl

/-- Claim C2 as stated is false: with a present local identity but no
cluster listener, a refresh to a non-empty parseable address returns nil,
not an error. -/
theorem C2_missing_listener_counterexample :
    "https://active:8201" ≠ "" ∧
    oracleDialOk.parseURL "https://active:8201" = .ok { host := "https://active:8201" } ∧
    stateNoListener.identity.localClusterParsedCert = some certA ∧
    stateNoListener.clusterListener = none ∧
    (refreshRequestForwardingConnection oracleDialOk stateNoListener 0
        "https://active:8201").2.1 = none := by
  refine ⟨by decide, rfl, rfl, rfl, rfl⟩

/-- Claim C2 amended: with a non-empty parseable address, a missing local
cluster identity is a hard failure (non-nil error), but a missing cluster
listener makes the refresh return nil after only the initial clear. -/
theorem C2_missing_preconditions_amended (o : RefreshOracle) (s : CoreState) (ctx : Nat)
    (addr : String) (u : URL)
    (hne : addr ≠ "") (hp : o.parseURL addr = .ok u) :
    (s.identity.localClusterParsedCert = none →
        (refreshRequestForwardingConnection o s ctx addr).2.1
          = some "no request forwarding cluster certificate found") ∧
    (∀ pc, s.identity.localClusterParsedCert = some pc → s.clusterListener = none →
        (refreshRequestForwardingConnection o s ctx addr).2.1 = none ∧
        (refreshRequestForwardingConnection o s ctx addr).1
          = (clearForwardingClients s).1) := by
  obtain ⟨-, -, -, -, hid, -⟩ := clearForwardingClients_fields s
  constructor
  · intro hc
    have hq : (refreshRequestForwardingConnection o s ctx addr).2.1
        = (refreshEstablish o (clearForwardingClients s).1 ctx addr).2.1 := rfl
    rw [hq, refreshEstablish_noCert o _ ctx addr u hne hp (by rw [hid]; exact hc)]
  · intro pc hc hl
    have hl1 : (clearForwardingClients s).1.clusterListener = none := by
      rw [clearForwardingClients_listener s, hl]; rfl
    have he := refreshEstablish_noListener o (clearForwardingClients s).1 ctx addr u pc
      hne hp (by rw [hid]; exact hc) hl1
    constructor
    · show (refreshEstablish o (clearForwardingClients s).1 ctx addr).2.1 = none
      rw [he]
    · show (refreshEstablish o (clearForwardingClients s).1 ctx addr).1
        = (clearForwardingClients s).1
      rw [he]

/-- Witness for C2 (amended): with an absent identity the refresh fails
with the missing-certificate error. -/
theorem C2_missing_cert_witness :
    (refreshRequestForwardingConnection oracleDialOk stateNoCert 0 "https://active:8201").2.1
      = some "no request forwarding cluster certificate found" :=
  (C2_missing_preconditions_amended oracleDialOk stateNoCert 0 "https://active:8201"
      { host := "https://active:8201" } (by decide) rfl).1 rfl

/-- Claim C3 as stated is false: `Stop` does not run signal-sleep-stop;
the stop-channel close is not its first step. -/
theorem C3_stop_order_counterexample :
    (requestForwardingHandlerStop { stopChClosed := false, rpcServerStopped := false }).2.1
      ≠ [StopEvent.closeStopCh, StopEvent.sleepAcceptDrain, StopEvent.stopRPCServer] := by
  decide

/-- Claim C3 amended: `Stop` first sleeps for the cluster listener's
accept-drain interval, then closes the internal stop channel, then
forcibly stops the RPC server, and returns nil. -/
theorem C3_stop_order_amended (h : RFHandlerState) :
    (requestForwardingHandlerStop h).2.1
      = [StopEvent.sleepAcceptDrain, StopEvent.closeStopCh, StopEvent.stopRPCServer] ∧
    (requestForwardingHandlerStop h).2.2 = none ∧
    (requestForwardingHandlerStop h).1.stopChClosed = true ∧
    (requestForwardingHandlerStop h).1.rpcServerStopped = true :=
  ⟨rfl, rfl, rfl, rfl⟩

/-- Witness for C3 (amended) at a concrete handler state. -/
theorem C3_stop_order_witness :
    (requestForwardingHandlerStop { stopChClosed := false, rpcServerStopped := false }).2.1
      = [StopEvent.sleepAcceptDrain, StopEvent.closeStopCh, StopEvent.stopRPCServer] :=
  (C3_stop_order_amended { stopChClosed := false, rpcServerStopped := false }).1

/-- Claim C4 as stated is false: with an absent identity `ServerLookup`
returns no certificate but a non-nil error, not "no certificate and no
error". -/
theorem C4_server_lookup_error_counterexample :
    identAbsent.localClusterCert = [] ∧ identAbsent.localClusterParsedCert = none ∧
    (ServerLookup identAbsent).1 = none ∧ (ServerLookup identAbsent).2 ≠ none := by
  decide

/-- Claim C4 amended: with an absent identity `ClientLookup` declines
every handshake with no certificate and no error (in both missing
cases); `ServerLookup` keys only on the stored certificate bytes — with
empty bytes it returns no certificate together with a non-nil error, and
with non-empty bytes it returns a certificate even if the parsed
certificate is absent. -/
theorem C4_absent_identity_amended (c : CoreIdentity) (cas : List Bytes) :
    ((c.localClusterParsedCert = none ∨ c.localClusterCert = []) →
        ClientLookup c cas = (none, none)) ∧
    (c.localClusterCert = [] →
        (ServerLookup c).1 = none ∧ (ServerLookup c).2 ≠ none) ∧
    (c.localClusterCert ≠ [] →
        (ServerLookup c).2 = none ∧
        (ServerLookup c).1
          = some { certificate := [c.localClusterCert],
                   privateKey := c.localClusterPrivateKey,
                   leaf := c.localClusterParsedCert }) := by
  refine ⟨?_, ?_, ?_⟩
  · rintro (hpc | hcert)
    · simp [ClientLookup, hpc]
    · cases hpc2 : c.localClusterParsedCert with
      | none => simp [ClientLookup, hpc2]
      | some pc => simp [ClientLookup, hpc2, hcert]
  · intro hcert
    simp [ServerLookup, hcert]
  · intro hcert
    simp [ServerLookup, List.length_eq_zero, hcert]

/-- Witness for C4 (amended) at the absent identity. -/
theorem C4_absent_identity_witness :
    ClientLookup identAbsent [] = (none, none) ∧
    (ServerLookup identAbsent).1 = none ∧ (ServerLookup identAbsent).2 ≠ none := by
  have h := C4_absent_identity_amended identAbsent []
  exact ⟨h.1 (Or.inl rfl), h.2.1 rfl⟩

/-- Claim C5: `ForwardRequest` on a node with a nil forwarding client
returns status 0, nil headers, nil body and the sentinel
`ErrCannotForward`, with an empty trace (no metrics, no serialization, no
RPC call), leaving the request untouched. -/
theorem C5_cannot_forward (o : ForwardOracle) (s : CoreState) (req : Request)
    (h : s.rpcForwardingClient = none) :
    ForwardRequest o s req
      = Outcome.ok { status := 0, header := none, body := none,
                     err := some ErrCannotForward, reqAfter := req, trace := [] } := by
  unfold ForwardRequest
  rw [h]

/-- Witness for C5 at a concrete disconnected node. -/
theorem C5_cannot_forward_witness :
    ForwardRequest fwdOracleOk stateIdle reqFix
      = Outcome.ok { status := 0, header := none, body := none,
                     err := some ErrCannotForward, reqAfter := reqFix, trace := [] } :=
  C5_cannot_forward fwdOracleOk stateIdle reqFix rfl

/-- Claim C6: with a present identity, `ClientLookup` returns no
certificate and no error when no acceptable-CA subject equals the local
certificate's raw issuer, and returns the local certificate when some
subject equals it. -/
theorem C6_client_lookup_issuer (c : CoreIdentity) (pc : X509Certificate) (cas : List Bytes)
    (hpc : c.localClusterParsedCert = some pc) (hcert : c.localClusterCert ≠ []) :
    (pc.rawIssuer ∉ cas → ClientLookup c cas = (none, none)) ∧
    (pc.rawIssuer ∈ cas →
        ClientLookup c cas
          = (some { certificate := [c.localClusterCert],
                    privateKey := c.localClusterPrivateKey,
                    leaf := some pc }, none)) := by
  have hlen : ¬ c.localClusterCert.length = 0 := by
    simpa [List.length_eq_zero] using hcert
  constructor
  · intro hni
    have hany : cas.any (fun subj => decide (subj = pc.rawIssuer)) = false := by
      simp only [List.any_eq_false, decide_eq_true_eq]
      intro x hx hEq
      exact hni (hEq ▸ hx)
    simp [ClientLookup, hpc, hlen, hany]
  · intro hi
    have hany : cas.any (fun subj => decide (subj = pc.rawIssuer)) = true := by
      simp only [List.any_eq_true, decide_eq_true_eq]
      exact ⟨pc.rawIssuer, hi, rfl⟩
    simp [ClientLookup, hpc, hlen, hany]

/-- Witness for C6: the local certificate is served when the peer accepts
its issuer. -/
theorem C6_client_lookup_issuer_witness :
    ClientLookup identPresent [[1, 2, 3]]
      = (some { certificate := [[4, 5]], privateKey := some 11, leaf := some certA },
         none) :=
  (C6_client_lookup_issuer identPresent certA [[1, 2, 3]] rfl (by decide)).2 (by decide)

/-- Claim C7 as stated is false: when the dial fails, the error is
propagated and all connection state is nil, but the client-identity
registration added just before dialing stays on the cluster listener. -/
theorem C7_lingering_registration_counterexample :
    (refreshRequestForwardingConnection oracleDialFail stateIdle 0 "https://active:8201").2.1
        = some "connection refused" ∧
    (refreshRequestForwardingConnection oracleDialFail stateIdle 0
        "https://active:8201").1.clusterListener
        = some { clients := [RequestForwardingALPN] } := by
  refine ⟨rfl, rfl⟩

/-- Claim C7 amended: when the dial fails the error is propagated and the
node holds no RPC connection, cancel func, context or forwarding client,
but the client-identity registration added before dialing remains on the
cluster listener (it is only removed by the next clear or refresh). -/
theorem C7_dial_failure_amended (o : RefreshOracle) (s : CoreState) (ctx : Nat)
    (addr : String) (u : URL) (pc : X509Certificate) (l : ClusterListener) (e : String)
    (hne : addr ≠ "") (hp : o.parseURL addr = .ok u)
    (hpc : s.identity.localClusterParsedCert = some pc)
    (hl : s.clusterListener = some l)
    (hd : o.dial u.host = .error e) :
    (refreshRequestForwardingConnection o s ctx addr).2.1 = some e ∧
    (refreshRequestForwardingConnection o s ctx addr).1.rpcClientConn = none ∧
    (refreshRequestForwardingConnection o s ctx addr).1.rpcClientConnCancelFunc = none ∧
    (refreshRequestForwardingConnection o s ctx addr).1.rpcClientConnContext = none ∧
    (refreshRequestForwardingConnection o s ctx addr).1.rpcForwardingClient = none ∧
    (refreshRequestForwardingConnection o s ctx addr).1.clusterListener
      = some (addClient RequestForwardingALPN (removeClient RequestForwardingALPN l)) ∧
    RequestForwardingALPN
      ∈ (addClient RequestForwardingALPN (removeClient RequestForwardingALPN l)).clients := by
  obtain ⟨h1, h2, h3, h4, hid, -⟩ := clearForwardingClients_fields s
  have hl1 : (clearForwardingClients s).1.clusterListener
      = some (removeClient RequestForwardingALPN l) := by
    rw [clearForwardingClients_listener s, hl]; rfl
  have he := refreshEstablish_dialFail o (clearForwardingClients s).1 ctx addr u pc
    (removeClient RequestForwardingALPN l) e hne hp (by rw [hid]; exact hpc) hl1 hd
  have hst : (refreshRequestForwardingConnection o s ctx addr).1
      = { (clearForwardingClients s).1 with
            clusterListener := some (addClient RequestForwardingALPN
              (removeClient RequestForwardingALPN l)) } := by
    show (refreshEstablish o (clearForwardingClients s).1 ctx addr).1 = _
    rw [he]
  have herr : (refreshRequestForwardingConnection o s ctx addr).2.1 = some e := by
    show (refreshEstablish o (clearForwardingClients s).1 ctx addr).2.1 = _
    rw [he]
  refine ⟨herr, ?_, ?_, ?_, ?_, ?_, mem_addClient _ _⟩
  · rw [hst]; exact h1
  · rw [hst]; exact h2
  · rw [hst]; exact h3
  · rw [hst]; exact h4
  · rw [hst]

/-- Witness for C7 (amended): a failed dial leaves the error propagated
and the forwarding tag still registered. -/
theorem C7_dial_failure_witness :
    (refreshRequestForwardingConnection oracleDialFail stateIdle 0
        "https://active:8201").2.1 = some "connection refused" ∧
    RequestForwardingALPN
      ∈ (addClient RequestForwardingALPN
          (removeClient RequestForwardingALPN { clients := [] })).clients := by
  have h := C7_dial_failure_amended oracleDialFail stateIdle 0 "https://active:8201"
    { host := "https://active:8201" } certA { clients := [] } "connection refused"
    (by decide) rfl rfl rfl rfl
  exact ⟨h.1, h.2.2.2.2.2.2⟩

/-- Claim C8: every `ForwardRequest` call that proceeds past the
nil-client check returns the caller's request with its URL path (and
every other field) restored to the pre-call value, on success and error
paths alike, while the snapshot handed to the serializer carries the
context's original request path. -/
theorem C8_path_restored (o : ForwardOracle) (s : CoreState) (req : Request) (cl : Nat)
    (p : String)
    (hc : s.rpcForwardingClient = some cl)
    (hp : req.ctxOriginalRequestPath = some (CtxValue.str p)) :
    forwardPreservesRequest req p (ForwardRequest o s req) := by
  obtain ⟨m, up, ur, hd, bd, ctx, rs⟩ := req
  simp only [] at hp
  subst hp
  unfold ForwardRequest
  rw [hc]
  simp only []
  cases hg : o.genFwd { method := m, urlPath := p, urlRest := ur, header := hd, body := bd, ctxOriginalRequestPath := some (CtxValue.str p), rest := rs } with
  | error e => simp [forwardPreservesRequest, hg]
  | ok ofreq =>
    cases ofreq with
    | none => simp [forwardPreservesRequest, hg]
    | some freq =>
      cases hr : o.rpcForward freq with
      | error e => simp [forwardPreservesRequest, hg, hr]
      | ok resp => simp [forwardPreservesRequest, hg, hr]

/-- Witness for C8 at a concrete connected node and request. -/
theorem C8_path_restored_witness :
    forwardPreservesRequest reqFix "/v1/secret/foo"
      (ForwardRequest fwdOracleOk stateConnected reqFix) :=
  C8_path_restored fwdOracleOk stateConnected reqFix 5 "/v1/secret/foo" rfl rfl

/-- Claim C9: a successful forwarded RPC returns the wire response's
status code, header multimap and body verbatim — nil header entries give
a nil header, and each header name maps to its entry's ordered value
list (repeated values preserved). -/
theorem C9_response_verbatim (o : ForwardOracle) (s : CoreState) (req : Request)
    (cl : Nat) (p : String) (freq : ForwardedRequest) (resp : ForwardedResponse)
    (hc : s.rpcForwardingClient = some cl)
    (hp : req.ctxOriginalRequestPath = some (CtxValue.str p))
    (hg : o.genFwd { req with urlPath := p } = .ok (some freq))
    (hr : o.rpcForward freq = .ok resp)
    (hnd : ∀ entries, resp.headerEntries = some entries → (entries.map Prod.fst).Nodup) :
    ForwardRequest o s req
      = Outcome.ok { status := (resp.statusCode : Int),
                     header := buildHeader resp.headerEntries,
                     body := some resp.body, err := none, reqAfter := req,
                     trace := [FwdEvent.serialize { req with urlPath := p },
                               FwdEvent.rpcCall freq, FwdEvent.metricMeasure] } ∧
    (resp.headerEntries = none → buildHeader resp.headerEntries = none) ∧
    (∀ entries, resp.headerEntries = some entries →
        ∃ hm, buildHeader resp.headerEntries = some hm ∧
          ∀ kv ∈ entries, lookupHeader kv.1 hm = some kv.2.values) := by
  obtain ⟨m, up, ur, hd, bd, ctx, rs⟩ := req
  simp only [] at hp hg
  subst hp
  refine ⟨?_, ?_, ?_⟩
  · unfold ForwardRequest
    rw [hc]
    simp only []
    rw [hg]
    simp only []
    rw [hr]
  · intro h
    rw [h]
    rfl
  · intro entries he
    rw [he, buildHeader_eq_of_nodup entries (hnd entries he)]
    refine ⟨_, rfl, ?_⟩
    intro kv hkv
    exact lookupHeader_map_of_nodup entries (hnd entries he) kv.1 kv.2 hkv

/-- Witness for C9 at a concrete response with a repeated-value header. -/
theorem C9_response_verbatim_witness :
    ForwardRequest fwdOracleOk stateConnected reqFix
      = Outcome.ok { status := 200,
                     header := some [("X-Test", ["1", "2"]), ("X-Echo", ["ok"])],
                     body := some [100, 111, 110, 101], err := none, reqAfter := reqFix,
                     trace := [FwdEvent.serialize { reqFix with urlPath := "/v1/secret/foo" },
                               FwdEvent.rpcCall freqFix, FwdEvent.metricMeasure] } := by
  have h := (C9_response_verbatim fwdOracleOk stateConnected reqFix 5 "/v1/secret/foo"
    freqFix respFix rfl rfl rfl rfl
    (by intro entries he; injection he with h2; subst h2; decide)).1
  exact h

/-- Claim C10: with an established forwarding client, a request whose
context does not carry a string under `"original_request_path"` makes
`ForwardRequest` panic (the unchecked type assertion), not return an
error. -/
theorem C10_panic_missing_context_path (o : ForwardOracle) (s : CoreState) (req : Request)
    (cl : Nat)
    (hc : s.rpcForwardingClient = some cl)
    (hp : req.ctxOriginalRequestPath = none ∨
          req.ctxOriginalRequestPath = some CtxValue.nonString) :
    ForwardRequest o s req = Outcome.panicked := by
  unfold ForwardRequest
  rw [hc]
  rcases hp with hp | hp <;> rw [hp]

/-- Witness for C10 at a concrete request lacking the context value. -/
theorem C10_panic_missing_context_path_witness :
    ForwardRequest fwdOracleOk stateConnected reqNoCtx = Outcome.panicked :=
  C10_panic_missing_context_path fwdOracleOk stateConnected reqNoCtx 5 rfl (Or.inl rfl)

end OpenBao
